import Mathlib

/-!
Verification of `src/file_system_entry.rs`
(Obsidian-Minecraft-Server-Portal / minecraft-server-manager)

Shallow embedding of the filesystem-entry classifier. The ambient
filesystem and the pluggable capabilities (metadata queries, the
`mime_guess` crate, file reads, directory reads) are modelled as an
abstract state `FS` of pure functions; every function of the source file
is translated as a pure Lean function over that state.

Modelling conventions:
* Paths and OS strings are `String`.
* `SystemTime` is an abstract `Nat` timestamp; `UNIX_EPOCH` is `0`.
* A fallible capability returns `Option`: `none` is the `Err`/failure case.
* `FS.readBytes p` is the at-most-1024-byte slice `buffer[..bytes_read]`
  actually obtained by `File::open` + `read` in `is_text_file`; `none`
  covers both an open failure and a read failure. (Rust's types guarantee
  `bytes_read <= 1024`; no claim below depends on that bound.)
* `FS.readDir p` returns `none` when `fs::read_dir` fails, and otherwise
  the list of directory entries in read order, where an element `none` is
  a child whose `DirEntry` could not be materialised (an `Err` item that
  `.flatten()` drops) and `some c` is a child with full path `c`.
-/

namespace MCSM

/-- Category enumeration `FileMimeCategory` from the source. -/
inductive FileMimeCategory where
  | TEXT
  | IMAGE
  | AUDIO
  | ARCHIVE
  | VIDEO
  | UNKNOWN
  deriving DecidableEq, Repr

/-- A MIME type as the `mime_guess` capability yields it: `top` is
`mime.type_().as_str()` (the top-level type) and `full` is
`mime.to_string()` (the full rendering used by `get_mime`). -/
structure MimeType where
  top : String
  full : String
  deriving DecidableEq, Repr

/-- The slice of `std::fs::Metadata` the source consumes: directory flag,
byte length, and the two optional timestamps (`created()` / `modified()`
are fallible on some platforms, hence `Option`). -/
structure Metadata where
  is_dir : Bool
  len : Nat
  created : Option Nat
  modified : Option Nat
  deriving DecidableEq, Repr

/-- The ambient filesystem state and capabilities, frozen for one call.
`pathExists` models `Path::exists` (named so because `exists` is a Lean
keyword), `isDir` models `Path::is_dir`, `guessMime` the
`mime_guess::from_path(..).first()` capability, `metadata` the
`PathBuf::metadata` query, and `now` the current `SystemTime::now()`. -/
structure FS where
  pathExists : String → Bool
  isDir : String → Bool
  readBytes : String → Option (List Nat)
  guessMime : String → Option MimeType
  metadata : String → Option Metadata
  readDir : String → Option (List (Option String))
  now : Nat

/-- The static extension→label table built by `HashMap::from` in
`get_file_type`, in source order. -/
def fileTypeTable : List (String × String) :=
  [("zip", "Zip Archive"),
   ("tar", "Tar Archive"),
   ("tar.gz", "Tar GZip Archive"),
   ("tar.bz2", "Tar BZip2 Archive"),
   ("tar.xz", "Tar XZ Archive"),
   ("7z", "7-Zip Archive"),
   ("rar", "RAR Archive"),
   ("jar", "Java Archive"),
   ("war", "Web Archive"),
   ("ear", "Enterprise Archive"),
   ("exe", "Windows Executable"),
   ("msi", "Windows Installer"),
   ("sh", "Shell Script"),
   ("bat", "Batch Script"),
   ("cmd", "Command Script"),
   ("py", "Python Script"),
   ("rb", "Ruby Script"),
   ("pl", "Perl Script"),
   ("php", "PHP Script"),
   ("html", "HTML Document"),
   ("htm", "HTML Document"),
   ("xhtml", "XHTML Document"),
   ("css", "CSS Stylesheet"),
   ("js", "JavaScript File"),
   ("ts", "TypeScript File"),
   ("jsx", "JavaScript XML"),
   ("tsx", "TypeScript XML"),
   ("json", "JSON File"),
   ("xml", "XML Document"),
   ("yaml", "YAML Document"),
   ("yml", "YAML Document"),
   ("toml", "TOML Config"),
   ("ini", "INI Config"),
   ("cfg", "Configuration File"),
   ("conf", "Configuration File"),
   ("log", "Log File"),
   ("md", "Markdown Document"),
   ("txt", "Text File"),
   ("csv", "CSV File"),
   ("tsv", "TSV File"),
   ("pdf", "PDF Document"),
   ("doc", "Word Document"),
   ("docx", "Word Document"),
   ("xls", "Excel Spreadsheet"),
   ("xlsx", "Excel Spreadsheet"),
   ("ppt", "PowerPoint Presentation"),
   ("pptx", "PowerPoint Presentation"),
   ("odt", "OpenDocument Text"),
   ("ods", "OpenDocument Spreadsheet"),
   ("odp", "OpenDocument Presentation"),
   ("jpg", "JPEG Image"),
   ("jpeg", "JPEG Image"),
   ("png", "PNG Image"),
   ("gif", "GIF Image"),
   ("bmp", "Bitmap Image"),
   ("tiff", "TIFF Image"),
   ("ico", "Icon Image"),
   ("svg", "SVG Image"),
   ("mp3", "MP3 Audio"),
   ("wav", "WAV Audio"),
   ("flac", "FLAC Audio"),
   ("ogg", "OGG Audio"),
   ("aac", "AAC Audio"),
   ("m4a", "M4A Audio"),
   ("wma", "WMA Audio"),
   ("mp4", "MP4 Video"),
   ("m4v", "M4V Video"),
   ("mkv", "MKV Video"),
   ("avi", "AVI Video"),
   ("mov", "MOV Video"),
   ("wmv", "WMV Video"),
   ("flv", "FLV Video"),
   ("webm", "WebM Video"),
   ("vob", "DVD Video"),
   ("mpg", "MPEG Video"),
   ("mpeg", "MPEG Video"),
   ("iso", "ISO Disk Image"),
   ("dmg", "MacOS Disk Image"),
   ("vdi", "VirtualBox Disk Image"),
   ("vmdk", "VMware Disk Image"),
   ("qcow2", "QEMU Copy-On-Write Disk Image"),
   ("qcow", "QEMU Copy-On-Write Disk Image"),
   ("ova", "Virtual Appliance"),
   ("ovf", "Open Virtualization Format"),
   ("img", "Disk Image"),
   ("dd", "Disk Dump Image"),
   ("vhd", "Virtual Hard Disk"),
   ("vhdx", "Virtual Hard Disk"),
   ("xpi", "Mozilla Add-on"),
   ("crx", "Chrome Extension"),
   ("oxt", "OpenOffice Extension"),
   ("apk", "Android Package"),
   ("ipa", "iOS App Package"),
   ("deb", "Debian Package"),
   ("rpm", "Red Hat Package"),
   ("flatpak", "Flatpak Package"),
   ("mcworld", "Minecraft World"),
   ("mcpack", "Minecraft Resource Pack"),
   ("mcaddon", "Minecraft Add-On"),
   ("mctemplate", "Minecraft Template"),
   ("mclevel", "Minecraft Level"),
   ("schematic", "Minecraft Schematic"),
   ("dat", "Minecraft Data File"),
   ("ldb", "Minecraft LevelDB Database File"),
   ("mca", "Minecraft Anvil Data"),
   ("mcr", "Minecraft Region Data"),
   ("nbt", "Minecraft Named Binary Tag"),
   ("mcfunction", "Minecraft Function File"),
   ("mcmeta", "Minecraft Metadata File"),
   ("properties", "Minecraft Properties File")]

/-- Source `get_file_type`: `types.get(&extension[..]).unwrap_or(&extension.as_str())`.
The table's keys are pairwise distinct (`fileTypeTable_keys_nodup` below),
so an association-list lookup agrees with the `HashMap` lookup. -/
def get_file_type (ext : String) : String :=
  (fileTypeTable.lookup ext).getD ext

/-- The byte predicate of `is_text_file`'s loop: tab, LF, CR, or
printable ASCII `0x20..=0x7E`. -/
def isTextByte (b : Nat) : Bool :=
  b == 0x09 || b == 0x0A || b == 0x0D || (0x20 ≤ b && b ≤ 0x7E)

/-- Source `is_text_file`: open the file and read at most 1024 bytes; `false` on
open/read failure, otherwise `true` iff every byte read is `isTextByte`. -/
def is_text_file (fs : FS) (p : String) : Bool :=
  match fs.readBytes p with
  | none => false
  | some bs => bs.all isTextByte

/-- Source `get_mime_category`: nonexistent → UNKNOWN; directory → UNKNOWN;
otherwise map the first MIME guess's top-level type, falling back to
`is_text_file` only when no guess exists. -/
def get_mime_category (fs : FS) (p : String) : FileMimeCategory :=
  if !(fs.pathExists p) then FileMimeCategory.UNKNOWN
  else if fs.isDir p then FileMimeCategory.UNKNOWN
  else
    match fs.guessMime p with
    | some m =>
      match m.top with
      | "text" => FileMimeCategory.TEXT
      | "image" => FileMimeCategory.IMAGE
      | "audio" => FileMimeCategory.AUDIO
      | "video" => FileMimeCategory.VIDEO
      | "application" => FileMimeCategory.ARCHIVE
      | _ => FileMimeCategory.UNKNOWN
    | none =>
      if is_text_file fs p then FileMimeCategory.TEXT
      else FileMimeCategory.UNKNOWN

/-- Source `get_mime`: `mime_guess::from_path(path).first().map(|m| m.to_string())`. -/
def get_mime (fs : FS) (p : String) : Option String :=
  (fs.guessMime p).map (fun m => m.full)

/-- Split a character list on a separator character; the structural
analogue of `String.splitOn` for a one-character separator. -/
def splitOnChar (sep : Char) : List Char → List (List Char)
  | [] => [[]]
  | c :: cs =>
    match splitOnChar sep cs with
    | [] => if c = sep then [[], []] else [[c]]
    | w :: ws => if c = sep then [] :: w :: ws else (c :: w) :: ws

/-- Rust `Path::file_name`: the final path component, `none` when there is
none (empty path, root, or a path ending in `..`); `.` components and
empty components (repeated or trailing separators) are skipped. -/
def fileName (p : String) : Option String :=
  let comps := ((splitOnChar '/' p.data).map String.mk).filter
    (fun c => c != "" && c != ".")
  match comps.getLast? with
  | none => none
  | some c => if c = ".." then none else some c

/-- Split a character list at its LAST `.`: `some (before, after)`, or
`none` when no `.` occurs. Mirrors the `rfind('.')` split that Rust's
`Path::extension` performs on the file name. -/
def splitAtLastDot : List Char → Option (List Char × List Char)
  | [] => none
  | c :: cs =>
    match splitAtLastDot cs with
    | some (b, a) => some (c :: b, a)
    | none => if c = '.' then some ([], cs) else none

/-- Rust `Path::extension` applied to a file NAME: no extension when the name
is `..`, has no `.`, or its only `.` is the leading character (hidden
file); otherwise the portion after the last `.`. -/
def rustExtension (name : String) : Option String :=
  if name = ".." then none
  else
    match splitAtLastDot name.data with
    | none => none
    | some (b, a) => if b = [] then none else some (String.mk a)

/-- Rust `Path::parent`: the path minus its final component; `none` for an
empty path or a bare root. Only its existence/absence matters to the
claims below. -/
def parentPath (p : String) : Option String :=
  if p = "" || p = "/" then none
  else
    let comps := (p.splitOn "/").filter (fun c => c != "")
    match comps with
    | [] => none
    | [_] => if p.startsWith "/" then some "/" else some ""
    | _ =>
      some ((if p.startsWith "/" then "/" else "")
        ++ String.intercalate "/" comps.dropLast)

/-- Value of `SystemTime::UNIX_EPOCH` in the abstract timestamp model. -/
def unixEpoch : Nat := 0

/-- Record `FileSystemEntry` from the source (the Rust field `r#type` is
`type` here; `SystemTime` fields are `Nat` timestamps). -/
structure FileSystemEntry where
  name : String
  path : String
  is_dir : Bool
  size : Nat
  type : String
  mime : Option String
  category : FileMimeCategory
  created : Nat
  last_modified : Nat
  deriving DecidableEq, Repr

/-- Source `Default for FileSystemEntry`: both timestamp fields call
`SystemTime::now()`, modelled by the state's single `now`. -/
def FileSystemEntry.default (now : Nat) : FileSystemEntry :=
  { name := ""
    path := ""
    is_dir := false
    size := 0
    type := ""
    mime := none
    category := FileMimeCategory.TEXT
    created := now
    last_modified := now }

/-- Record `FileSystemEntries` from the source. -/
structure FileSystemEntries where
  parent : Option String
  entries : List FileSystemEntry
  deriving DecidableEq, Repr

/-- Source `Default for FileSystemEntries`. -/
def FileSystemEntries.default : FileSystemEntries :=
  { parent := none, entries := [] }

/-- Source `From<PathBuf> for FileSystemEntry` (the `build_entry` operation):
on metadata success assemble the classified entry; on failure return the
default placeholder. -/
def build_entry (fs : FS) (p : String) : FileSystemEntry :=
  match fs.metadata p with
  | some md =>
    { name := (fileName p).getD ""
      path := p
      is_dir := md.is_dir
      size := md.len
      type := get_file_type (((fileName p).bind rustExtension).getD "")
      mime := get_mime fs p
      category := get_mime_category fs p
      created := md.created.getD unixEpoch
      last_modified := md.modified.getD unixEpoch }
  | none => FileSystemEntry.default fs.now

/-- Source `From<PathBuf> for FileSystemEntries` (the `list_directory`
operation): on `read_dir` success, build one entry per child that
materialised (`.flatten()` drops the `Err` children, the `none`
elements here); on failure return the default empty listing. -/
def list_directory (fs : FS) (p : String) : FileSystemEntries :=
  match fs.readDir p with
  | some children =>
    { parent := parentPath p
      entries := (children.filterMap id).map (fun c => build_entry fs c) }
  | none => FileSystemEntries.default

/-- Spec-side rendering of §4.3 MimeCategoryResolver, written from the
spec's words for the refinement claim C1: three short-circuiting checks,
then the top-level-type mapping, then the TextHeuristic fallback. -/
def resolve_category_spec (fs : FS) (p : String) : FileMimeCategory :=
  if fs.pathExists p = false then FileMimeCategory.UNKNOWN
  else if fs.isDir p = true then FileMimeCategory.UNKNOWN
  else
    match fs.guessMime p with
    | some m =>
      if m.top = "text" then FileMimeCategory.TEXT
      else if m.top = "image" then FileMimeCategory.IMAGE
      else if m.top = "audio" then FileMimeCategory.AUDIO
      else if m.top = "video" then FileMimeCategory.VIDEO
      else if m.top = "application" then FileMimeCategory.ARCHIVE
      else FileMimeCategory.UNKNOWN
    | none =>
      if is_text_file fs p = true then FileMimeCategory.TEXT
      else FileMimeCategory.UNKNOWN

/-- A small concrete filesystem used by the witnesses: one ASCII text
file `a.txt` (whose MIME guess is absent, exercising the heuristic
fallback), a binary file `b.bin`, a directory named `logs.txt` whose
name still draws a MIME guess, three tarballs, a readable directory `d`
with one unmaterialisable child, and a path `missing` with no
metadata. -/
def sampleFS : FS :=
  { pathExists := fun p =>
      p == "a.txt" || p == "b.bin" || p == "logs.txt" || p == "d"
        || p == "world.tar.gz" || p == "w.tar.bz2" || p == "w.tar.xz"
    isDir := fun p => p == "logs.txt" || p == "d"
    readBytes := fun p =>
      if p == "a.txt" then some [0x48, 0x69, 0x0A]
      else if p == "b.bin" then some [0x48, 0x00, 0x69]
      else none
    guessMime := fun p =>
      if p == "logs.txt" then some ⟨"text", "text/plain"⟩
      else if p == "world.tar.gz" then some ⟨"application", "application/gzip"⟩
      else none
    metadata := fun p =>
      if p == "missing" then none
      else if p == "a.txt" then some ⟨false, 3, some 100, none⟩
      else if p == "logs.txt" then some ⟨true, 0, some 5, some 7⟩
      else some ⟨false, 9, none, some 11⟩
    readDir := fun p =>
      if p == "d" then some [some "a.txt", none, some "logs.txt"]
      else none
    now := 42 }

/-- A state agreeing with `sampleFS` on everything except the read
capability (`a.txt` now reads as binary): used to witness that the
resolver ignores the text heuristic whenever a MIME guess exists. -/
def sampleFS2 : FS :=
  { sampleFS with readBytes := fun _ => some [0x00] }

/-- The keys of the static table are pairwise distinct, so the
association-list lookup in `get_file_type` coincides with the `HashMap`
lookup of the source. -/
theorem fileTypeTable_keys_nodup : (fileTypeTable.map Prod.fst).Nodup := by
  decide

/-- An association-list lookup misses every key outside the key set. -/
theorem lookup_eq_none_of_not_mem_keys (l : List (String × String))
    (s : String) (h : s ∉ l.map Prod.fst) : l.lookup s = none := by
  induction l with
  | nil => rfl
  | cons kv tl ih =>
    rcases kv with ⟨k, v⟩
    simp only [List.map_cons, List.mem_cons, not_or] at h
    have hk : (s == k) = false := beq_eq_false_iff_ne.mpr h.1
    simp [List.lookup, hk, ih h.2]

/-- C1: `get_mime_category` agrees everywhere with the spec's
resolver (nonexistent → UNKNOWN, directory → UNKNOWN, else the MIME
guess's top-level type mapped text/image/audio/video/application →
TEXT/IMAGE/AUDIO/VIDEO/ARCHIVE and anything else → UNKNOWN, with the
text heuristic consulted only when no guess exists); moreover, whenever
a guess exists the result is independent of the read capability, i.e.
the text heuristic is not consulted. -/
theorem get_mime_category_matches_spec (fs fs' : FS) (p : String)
    (hx : fs.pathExists = fs'.pathExists) (hd : fs.isDir = fs'.isDir)
    (hg : fs.guessMime = fs'.guessMime) :
    get_mime_category fs p = resolve_category_spec fs p ∧
      ((fs.guessMime p).isSome = true →
        get_mime_category fs p = get_mime_category fs' p) := by
  constructor
  · unfold get_mime_category resolve_category_spec
    cases hpe : fs.pathExists p
    · simp [hpe]
    · cases hdir : fs.isDir p
      · cases hgm : fs.guessMime p with
        | none => simp [hpe, hdir, hgm]
        | some m =>
          simp only [hpe, hdir, hgm, Bool.not_true, Bool.not_false,
            Bool.false_eq_true, Bool.true_eq_false, if_true, if_false,
            ite_false, ite_true]
          split <;> simp_all
      · simp [hpe, hdir]
  · intro hsome
    unfold get_mime_category
    rw [hx, hd, hg]
    rw [hg] at hsome
    rcases hgm : fs'.guessMime p with _ | m
    · rw [hgm] at hsome; simp at hsome
    · simp only [hgm]

/-- Witness for C1 at the concrete state: `world.tar.gz` has a MIME
guess, and the category neither departs from the spec resolver nor
changes when the read capability is replaced. -/
theorem get_mime_category_matches_spec_witness :
    get_mime_category sampleFS "world.tar.gz"
        = resolve_category_spec sampleFS "world.tar.gz" ∧
      ((sampleFS.guessMime "world.tar.gz").isSome = true →
        get_mime_category sampleFS "world.tar.gz"
          = get_mime_category sampleFS2 "world.tar.gz") :=
  get_mime_category_matches_spec sampleFS sampleFS2 "world.tar.gz"
    rfl rfl rfl

/-- C2: `is_text_file` returns `true` iff the bounded read succeeds and
every byte read is tab, LF, CR or printable ASCII; an open/read failure
forces `false` (fail-closed); a successful empty read yields `true`; a
single disqualifying byte anywhere in the read prefix forces `false`. -/
theorem is_text_file_matches_spec (fs : FS) (p : String) :
    (is_text_file fs p = true ↔
      ∃ bs, fs.readBytes p = some bs ∧ ∀ b ∈ bs, isTextByte b = true) ∧
    (fs.readBytes p = none → is_text_file fs p = false) ∧
    (fs.readBytes p = some [] → is_text_file fs p = true) ∧
    (∀ bs b, fs.readBytes p = some bs → b ∈ bs → isTextByte b = false →
      is_text_file fs p = false) := by
  rcases h : fs.readBytes p with _ | bs
  · simp [is_text_file, h]
  · refine ⟨?_, by simp, ?_, ?_⟩
    · simp [is_text_file, h, List.all_eq_true]
    · intro hc
      have he : bs = [] := by injection hc
      subst he
      simp [is_text_file, h]
    · intro bs' b hc hmem hbad
      have he : bs = bs' := by injection hc
      subst he
      simp only [is_text_file, h]
      exact List.all_eq_false.mpr ⟨b, hmem, by simp [hbad]⟩

/-- Witness for C2 at the concrete state: the ASCII file is text, the
file with a NUL byte is not, and the unreadable path is not. -/
theorem is_text_file_matches_spec_witness :
    is_text_file sampleFS "a.txt" = true ∧
    is_text_file sampleFS "b.bin" = false ∧
    is_text_file sampleFS "missing" = false := by
  refine ⟨?_, ?_, ?_⟩
  · exact (is_text_file_matches_spec sampleFS "a.txt").1.mpr
      ⟨[0x48, 0x69, 0x0A], by decide, by decide⟩
  · exact (is_text_file_matches_spec sampleFS "b.bin").2.2.2
      [0x48, 0x00, 0x69] 0x00 (by decide) (by decide) (by decide)
  · exact (is_text_file_matches_spec sampleFS "missing").2.1 (by decide)

set_option maxRecDepth 4096 in
/-- C3: on every key of the static table `get_file_type` returns the
table's label, in particular the three documented examples. -/
theorem get_file_type_table_labels :
    (∀ kv ∈ fileTypeTable, get_file_type kv.1 = kv.2) ∧
    get_file_type "zip" = "Zip Archive" ∧
    get_file_type "mp3" = "MP3 Audio" ∧
    get_file_type "mcworld" = "Minecraft World" := by
  exact ⟨by decide, by decide, by decide, by decide⟩

/-- Witness for C3: the general table clause applied to one concrete
table entry. -/
theorem get_file_type_table_labels_witness :
    get_file_type "tar" = "Tar Archive" :=
  get_file_type_table_labels.1 ("tar", "Tar Archive") (by decide)

/-- C4: `get_file_type` is total and acts as the identity on every
string outside the table's key set, including the empty string and the
uppercase variant of a known key. -/
theorem get_file_type_id_outside_table :
    (∀ s : String, s ∉ fileTypeTable.map Prod.fst → get_file_type s = s) ∧
    get_file_type "" = "" ∧
    get_file_type "ZIP" = "ZIP" := by
  refine ⟨?_, by decide, by decide⟩
  intro s hs
  unfold get_file_type
  rw [lookup_eq_none_of_not_mem_keys _ _ hs]
  rfl

/-- Witness for C4: the identity clause applied to a concrete unknown
extension. -/
theorem get_file_type_id_outside_table_witness :
    get_file_type "xyz123" = "xyz123" :=
  get_file_type_id_outside_table.1 "xyz123" (by decide)

/-- C5: when the metadata query fails, `build_entry` does not propagate
an error but returns the placeholder entry: empty name, size 0, empty
type label, no MIME string, category TEXT, and both timestamps set to
the current time. -/
theorem build_entry_default_on_metadata_failure (fs : FS) (p : String)
    (h : fs.metadata p = none) :
    (build_entry fs p).name = "" ∧
    (build_entry fs p).size = 0 ∧
    (build_entry fs p).type = "" ∧
    (build_entry fs p).mime = none ∧
    (build_entry fs p).category = FileMimeCategory.TEXT ∧
    (build_entry fs p).created = fs.now ∧
    (build_entry fs p).last_modified = fs.now := by
  simp [build_entry, h, FileSystemEntry.default]

/-- Witness for C5: the concrete path without metadata yields the
placeholder. -/
theorem build_entry_default_on_metadata_failure_witness :
    sampleFS.metadata "missing" = none ∧
      (build_entry sampleFS "missing").name = "" ∧
      (build_entry sampleFS "missing").category = FileMimeCategory.TEXT ∧
      (build_entry sampleFS "missing").created = sampleFS.now := by
  have h := build_entry_default_on_metadata_failure sampleFS "missing"
    (by decide)
  exact ⟨by decide, h.1, h.2.2.2.2.1, h.2.2.2.2.2.1⟩

/-- C6: when the directory read fails, `list_directory` returns the
empty listing with no parent and no entries, raising no error; when it
succeeds, exactly the children that materialised (the `some` elements,
in order) are classified, each unmaterialisable child being silently
omitted with no per-entry failure signal in the result. -/
theorem list_directory_error_handling (fs : FS) (p : String) :
    (fs.readDir p = none →
      list_directory fs p = { parent := none, entries := [] }) ∧
    (∀ children, fs.readDir p = some children →
      list_directory fs p =
        { parent := parentPath p
          entries :=
            (children.filterMap id).map (fun c => build_entry fs c) }) := by
  constructor
  · intro h
    simp [list_directory, h, FileSystemEntries.default]
  · intro children h
    simp [list_directory, h]

/-- Witness for C6: a failing directory read gives the empty listing; a
successful read of a directory with one unmaterialisable child lists
exactly the two surviving children. -/
theorem list_directory_error_handling_witness :
    sampleFS.readDir "nope" = none ∧
      list_directory sampleFS "nope" = { parent := none, entries := [] } ∧
      sampleFS.readDir "d" = some [some "a.txt", none, some "logs.txt"] ∧
      (list_directory sampleFS "d").entries =
        [build_entry sampleFS "a.txt", build_entry sampleFS "logs.txt"] := by
  refine ⟨by decide, (list_directory_error_handling sampleFS "nope").1
    (by decide), by decide, ?_⟩
  rw [(list_directory_error_handling sampleFS "d").2
    [some "a.txt", none, some "logs.txt"] (by decide)]
  rfl

/-- C7: when the metadata query succeeds, the entry's `created` and
`last_modified` fields take the metadata's creation and modification
times when supplied, and each independently defaults to the Unix epoch
when the metadata does not supply it. -/
theorem build_entry_timestamps (fs : FS) (p : String) (md : Metadata)
    (h : fs.metadata p = some md) :
    (∀ t, md.created = some t → (build_entry fs p).created = t) ∧
    (md.created = none → (build_entry fs p).created = unixEpoch) ∧
    (∀ t, md.modified = some t → (build_entry fs p).last_modified = t) ∧
    (md.modified = none → (build_entry fs p).last_modified = unixEpoch) := by
  refine ⟨?_, ?_, ?_, ?_⟩
  · intro t ht; simp [build_entry, h, ht]
  · intro ht; simp [build_entry, h, ht]
  · intro t ht; simp [build_entry, h, ht]
  · intro ht; simp [build_entry, h, ht]

/-- Witness for C7: `a.txt` has a creation time but no modification
time, so `created` is taken over and `last_modified` falls back to the
epoch. -/
theorem build_entry_timestamps_witness :
    (build_entry sampleFS "a.txt").created = 100 ∧
      (build_entry sampleFS "a.txt").last_modified = unixEpoch := by
  have h := build_entry_timestamps sampleFS "a.txt"
    ⟨false, 3, some 100, none⟩ (by decide)
  exact ⟨h.1 100 rfl, h.2.2.2 rfl⟩

/-- C8: `build_entry` is deterministic in the filesystem state with no
hidden state: whenever the metadata query succeeds, the entry's name
and extension-derived type label are functions of the path alone, so
any two invocations over an unchanged (or even different) filesystem
agree on them. -/
theorem build_entry_deterministic (fs fs' : FS) (p : String)
    (h : (fs.metadata p).isSome = true)
    (h' : (fs'.metadata p).isSome = true) :
    (build_entry fs p).name = (build_entry fs' p).name ∧
      (build_entry fs p).type = (build_entry fs' p).type := by
  rcases hm : fs.metadata p with _ | md
  · rw [hm] at h; simp at h
  · rcases hm' : fs'.metadata p with _ | md'
    · rw [hm'] at h'; simp at h'
    · simp [build_entry, hm, hm']

/-- Witness for C8: two states that differ in their read capability
still produce the same name and type label for `a.txt`. -/
theorem build_entry_deterministic_witness :
    (build_entry sampleFS "a.txt").name = (build_entry sampleFS2 "a.txt").name ∧
      (build_entry sampleFS "a.txt").type = (build_entry sampleFS2 "a.txt").type :=
  build_entry_deterministic sampleFS sampleFS2 "a.txt" (by decide) (by decide)

/-- Splitting a concatenation at the last dot: the split of the second
part wins when it has a dot; otherwise the split of the first part is
carried over with the second part appended to the `after` side. -/
theorem splitAtLastDot_append (xs ys : List Char) :
    splitAtLastDot (xs ++ ys) =
      match splitAtLastDot ys with
      | some (b, a) => some (xs ++ b, a)
      | none => (splitAtLastDot xs).map (fun q => (q.1, q.2 ++ ys)) := by
  induction xs with
  | nil =>
    rcases h : splitAtLastDot ys with _ | ⟨b, a⟩ <;>
      simp [splitAtLastDot, h]
  | cons c cs ih =>
    have hrw : splitAtLastDot ((c :: cs) ++ ys) =
        match splitAtLastDot (cs ++ ys) with
        | some (b, a) => some (c :: b, a)
        | none => if c = '.' then some ([], cs ++ ys) else none := rfl
    rw [hrw, ih]
    rcases h : splitAtLastDot ys with _ | ⟨b, a⟩
    · rcases h2 : splitAtLastDot cs with _ | ⟨b2, a2⟩
      · by_cases hc : c = '.' <;> simp [splitAtLastDot, h2, hc]
      · simp [splitAtLastDot, h2]
    · simp [splitAtLastDot]

/-- For any string `s`, the extension of `s ++ t` is the part of `t`
after `t`'s last dot, provided `t` splits there with a nonempty prefix
and is longer than `..`. -/
theorem rustExtension_append_suffix (s t : String) (b a : List Char)
    (hb : b ≠ []) (ht : splitAtLastDot t.data = some (b, a))
    (hlen : 2 < t.length) :
    rustExtension (s ++ t) = some (String.mk a) := by
  unfold rustExtension
  have hne : ¬(s ++ t = "..") := by
    intro hcontra
    have h1 : (s ++ t).length = 2 := by rw [hcontra]; rfl
    rw [String.length_append] at h1
    omega
  rw [if_neg hne, String.data_append, splitAtLastDot_append, ht]
  simp [hb]

/-- A file name of the form `stem.tar.gz` has Rust extension `gz`. -/
theorem rustExtension_targz (s : String) :
    rustExtension (s ++ ".tar.gz") = some "gz" :=
  rustExtension_append_suffix s ".tar.gz"
    ['.', 't', 'a', 'r'] ['g', 'z'] (by decide) (by decide) (by decide)

/-- A file name of the form `stem.tar.bz2` has Rust extension `bz2`. -/
theorem rustExtension_tarbz2 (s : String) :
    rustExtension (s ++ ".tar.bz2") = some "bz2" :=
  rustExtension_append_suffix s ".tar.bz2"
    ['.', 't', 'a', 'r'] ['b', 'z', '2'] (by decide) (by decide) (by decide)

/-- A file name of the form `stem.tar.xz` has Rust extension `xz`. -/
theorem rustExtension_tarxz (s : String) :
    rustExtension (s ++ ".tar.xz") = some "xz" :=
  rustExtension_append_suffix s ".tar.xz"
    ['.', 't', 'a', 'r'] ['x', 'z'] (by decide) (by decide) (by decide)

/-- C9: for any successfully queried paths whose file names have the
forms `stem.tar.gz`, `stem.tar.bz2`, `stem.tar.xz`, the extension
extracted by `build_entry` is only the final segment, so the
multi-segment table keys are unreachable: the type labels are the bare
`gz`, `bz2`, `xz`, never the tar-specific archive labels. -/
theorem build_entry_tarball_label (fs : FS) (p1 p2 p3 s1 s2 s3 : String)
    (md1 md2 md3 : Metadata)
    (h1 : fs.metadata p1 = some md1)
    (hn1 : fileName p1 = some (s1 ++ ".tar.gz"))
    (h2 : fs.metadata p2 = some md2)
    (hn2 : fileName p2 = some (s2 ++ ".tar.bz2"))
    (h3 : fs.metadata p3 = some md3)
    (hn3 : fileName p3 = some (s3 ++ ".tar.xz")) :
    ((build_entry fs p1).type = "gz" ∧
      (build_entry fs p1).type ≠ "Tar GZip Archive") ∧
    ((build_entry fs p2).type = "bz2" ∧
      (build_entry fs p2).type ≠ "Tar BZip2 Archive") ∧
    ((build_entry fs p3).type = "xz" ∧
      (build_entry fs p3).type ≠ "Tar XZ Archive") := by
  have e1 : (build_entry fs p1).type = "gz" := by
    unfold build_entry
    rw [h1]
    show get_file_type (((fileName p1).bind rustExtension).getD "") = "gz"
    rw [hn1]
    show get_file_type ((rustExtension (s1 ++ ".tar.gz")).getD "") = "gz"
    rw [rustExtension_targz]
    decide
  have e2 : (build_entry fs p2).type = "bz2" := by
    unfold build_entry
    rw [h2]
    show get_file_type (((fileName p2).bind rustExtension).getD "") = "bz2"
    rw [hn2]
    show get_file_type ((rustExtension (s2 ++ ".tar.bz2")).getD "") = "bz2"
    rw [rustExtension_tarbz2]
    decide
  have e3 : (build_entry fs p3).type = "xz" := by
    unfold build_entry
    rw [h3]
    show get_file_type (((fileName p3).bind rustExtension).getD "") = "xz"
    rw [hn3]
    show get_file_type ((rustExtension (s3 ++ ".tar.xz")).getD "") = "xz"
    rw [rustExtension_tarxz]
    decide
  refine ⟨⟨e1, ?_⟩, ⟨e2, ?_⟩, ⟨e3, ?_⟩⟩
  · rw [e1]; decide
  · rw [e2]; decide
  · rw [e3]; decide

/-- Witness for C9: the three concrete tarball paths in the sample
state get the bare final-segment labels. -/
theorem build_entry_tarball_label_witness :
    ((build_entry sampleFS "world.tar.gz").type = "gz" ∧
      (build_entry sampleFS "world.tar.gz").type ≠ "Tar GZip Archive") ∧
    ((build_entry sampleFS "w.tar.bz2").type = "bz2" ∧
      (build_entry sampleFS "w.tar.bz2").type ≠ "Tar BZip2 Archive") ∧
    ((build_entry sampleFS "w.tar.xz").type = "xz" ∧
      (build_entry sampleFS "w.tar.xz").type ≠ "Tar XZ Archive") :=
  build_entry_tarball_label sampleFS
    "world.tar.gz" "w.tar.bz2" "w.tar.xz" "world" "w" "w"
    ⟨false, 9, none, some 11⟩ ⟨false, 9, none, some 11⟩
    ⟨false, 9, none, some 11⟩
    (by decide) (by decide) (by decide) (by decide) (by decide) (by decide)

/-- C10: on an existing directory whose name draws a MIME guess, the
built entry's category is UNKNOWN (the resolver short-circuits on the
directory check) while its independent `mime` field is still the
name-based guess, so MIME presence and category disagree. -/
theorem directory_mime_category_disagreement (fs : FS) (p : String)
    (m : MimeType) (md : Metadata)
    (hex : fs.pathExists p = true) (hdir : fs.isDir p = true)
    (hm : fs.guessMime p = some m) (hmd : fs.metadata p = some md) :
    (build_entry fs p).category = FileMimeCategory.UNKNOWN ∧
      (build_entry fs p).mime = some m.full := by
  constructor
  · simp [build_entry, hmd, get_mime_category, hex, hdir]
  · simp [build_entry, hmd, get_mime, hm]

/-- Witness for C10: the directory named `logs.txt` gets category
UNKNOWN yet MIME `text/plain`. -/
theorem directory_mime_category_disagreement_witness :
    (build_entry sampleFS "logs.txt").category = FileMimeCategory.UNKNOWN ∧
      (build_entry sampleFS "logs.txt").mime = some "text/plain" :=
  directory_mime_category_disagreement sampleFS "logs.txt"
    ⟨"text", "text/plain"⟩ ⟨true, 0, some 5, some 7⟩
    (by decide) (by decide) (by decide) (by decide)

end MCSM
